import Mathlib

/-!
Shallow embedding of `GenDBScraper/PseudomonasDotComScraper.py`.

The Python module defines one class, `PseudomonasDotComScraper`, a query
record `pdc_query = namedtuple(strain, feature, organism)`, and module-level
helpers `_simple_get`, `_is_good_response`, `_dict_to_pdc_query` and
`_pandasDF_from_heading`.  Network traffic is modelled by a `World` function
mapping each URL to the response the site would give; BeautifulSoup parse
trees are modelled by `SoupPage`, which keeps exactly the element kinds the
scraper inspects (anchor elements with their visible text and href, and h3
headings together with the element that immediately follows each of them).
Python exceptions are modelled by the `PyError` type and fallible code
returns `Except PyError`.
-/

/-- The Python exception kinds this module can raise, with the message where
it matters to a claim. -/
inductive PyError where
  | keyError (msg : String)
  | typeError (msg : String)
  | runtimeError (msg : String)
  | connectionError (msg : String)
  | attributeError (msg : String)
  | indexError (msg : String)
  | unboundLocalError (name : String)
  | requestException (url : String)
deriving DecidableEq, Repr

/-- A Python value as far as the query setter distinguishes them: the `None`
object, a `str`, or any other object (carrying a tag naming its type). -/
inductive PyVal where
  | none
  | str (s : String)
  | other (tag : String)
deriving DecidableEq, Repr

/-- `v is None` in Python. -/
def isNone : PyVal → Bool
  | PyVal.none => true
  | _ => false

/-- `isinstance(v, str) or v is None`, the per-value check of line 111. -/
def isStrOrNone : PyVal → Bool
  | PyVal.none => true
  | PyVal.str _ => true
  | PyVal.other _ => false

/-- The `pdc_query` namedtuple: `(strain, feature, organism)`, each field a
Python value (defaults are all `None`). -/
structure PdcQuery where
  strain : PyVal
  feature : PyVal
  organism : PyVal
deriving DecidableEq, Repr

/-- A Python `dict` passed as a query: an insertion-ordered association list
of key/value pairs (Python dicts have unique keys; theorems that need this
assume it). -/
abbrev PyDict := List (String × PyVal)

/-- `d[k]` lookup returning `Option`: the first binding of `k`. -/
def dictGet (d : PyDict) (k : String) : Option PyVal :=
  (d.find? (fun kv => kv.1 == k)).map (fun kv => kv.2)

/-- `k in d.keys()`. -/
def dictHasKey (d : PyDict) (k : String) : Bool :=
  (dictGet d k).isSome

/-- The argument passed to the `query` setter: `None`, a `pdc_query`, a
`dict`, or any other object (which fails the isinstance check of line 81). -/
inductive QueryInput where
  | pyNone
  | query (q : PdcQuery)
  | dict (d : PyDict)
  | other (tag : String)
deriving DecidableEq, Repr

/-- The acceptable query keywords of line 87. -/
def accepted_keys : List String := ["strain", "feature", "organism"]

/-- Lines 89-91: the first key of the dict that is not an accepted keyword,
in insertion order, if any. -/
def findUnknownKey (d : PyDict) : Option String :=
  (d.find? (fun kv => !(accepted_keys.contains kv.1))).map (fun kv => kv.1)

/-- Lines 93-99: insert each of the three accepted keys that is missing,
with value `None`.  Python dict insertion appends at the end in key order
strain, feature, organism.  This mutates the caller's dict in place. -/
def complete_query_dict (d : PyDict) : PyDict :=
  let d1 := if dictHasKey d "strain" then d else d ++ [("strain", PyVal.none)]
  let d2 := if dictHasKey d1 "feature" then d1 else d1 ++ [("feature", PyVal.none)]
  if dictHasKey d2 "organism" then d2 else d2 ++ [("organism", PyVal.none)]

/-- `_dict_to_pdc_query(**kwargs)` (lines 229-240): read the three keys.
The setter only calls it after `complete_query_dict`, so all three keys are
present; the `getD` default is never reached from there. -/
def dict_to_pdc_query (d : PyDict) : PdcQuery :=
  { strain := (dictGet d "strain").getD PyVal.none
    feature := (dictGet d "feature").getD PyVal.none
    organism := (dictGet d "organism").getD PyVal.none }

/-- Lines 105-112 of the `query` setter: the keyword-consistency check
(organism and strain must not both be set) followed by the per-value type
check `for v in val[:]`, in tuple order strain, feature, organism. -/
def validate_pdc_query (q : PdcQuery) : Except PyError PdcQuery :=
  if !(isNone q.organism) && !(isNone q.strain) then
    Except.error (PyError.keyError "Invalid combination of query keywords: organism must not be combined with strain.")
  else if !([q.strain, q.feature, q.organism].all isStrOrNone) then
    Except.error (PyError.typeError "All values in the query must be of type str.")
  else
    Except.ok q

/-- The whole `query` setter (lines 66-113).  First component: the value
stored in `self.__query`, or the exception raised.  Second component: the
final state of the caller's dict when the input was a dict (`Option.none`
otherwise) - the setter mutates a dict argument in place at lines 93-99,
but only after all its keys passed the accepted-keys check of lines 89-91. -/
def set_query_with_dict (val : QueryInput) : Except PyError PdcQuery × Option PyDict :=
  match val with
  | QueryInput.pyNone =>
      (validate_pdc_query { strain := PyVal.str "sbw25", feature := PyVal.none, organism := PyVal.none }, Option.none)
  | QueryInput.query q => (validate_pdc_query q, Option.none)
  | QueryInput.other _ =>
      (Except.error (PyError.typeError "The parameter query must be a dict or pdc_query."), Option.none)
  | QueryInput.dict d =>
      match findUnknownKey d with
      | some _ =>
          (Except.error (PyError.keyError "Only strain, feature, and organism are acceptable keys."), some d)
      | Option.none =>
          let d2 := complete_query_dict d
          (validate_pdc_query (dict_to_pdc_query d2), some d2)

/-- `self.query = val`: just the stored-query outcome of the setter. -/
def set_query (val : QueryInput) : Except PyError PdcQuery :=
  (set_query_with_dict val).1

/-- The scraper state the claims observe: `self.__query` and
`self.__connected`.  (`self.__pdc_url` is the constant `pdc_url` below and
`self.__browser` is written by `connect` but never read afterwards.) -/
structure ScraperState where
  query : PdcQuery
  connected : Bool
deriving DecidableEq, Repr

/-- `PseudomonasDotComScraper.__init__` (lines 23-48): set
`__connected = False` and run the query setter on the argument. -/
def scraper_init (query : QueryInput) : Except PyError ScraperState :=
  match set_query query with
  | Except.error e => Except.error e
  | Except.ok q => Except.ok { query := q, connected := false }

/-- `self.__pdc_url` (line 43). -/
def pdc_url : String := "https://www.pseudomonas.com"

/-- An extracted table, as `pandas.read_html(..., index_col=0)[0]` returns
it: rows of cells, the first column being the row index.  Only emptiness
matters to the claims, but rows are kept so that distinct tables exist. -/
structure DataFrame where
  rows : List (List String)
deriving DecidableEq, Repr

/-- `pandas.DataFrame()` - the empty table of line 265. -/
def DataFrame.empty : DataFrame := { rows := [] }

/-- The element that immediately follows an h3 heading in the document
(`find_next`): either one that `read_html` parses into a table, or one on
which `read_html` raises (no table there; also stands for a missing next
element, where `str(None)` makes `read_html` raise the same way). -/
inductive Elem where
  | table (df : DataFrame)
  | noTable
deriving DecidableEq, Repr

/-- A BeautifulSoup parse tree, reduced to what the scraper inspects: the
anchor elements in document order (visible text, href attribute), and the
h3 headings in document order (heading text, element following it). -/
structure SoupPage where
  links : List (String × String)
  h3s : List (String × Elem)
deriving DecidableEq, Repr

/-- One pattern occurrence check: the pattern (second list) begins the
text (first argument). -/
def listIsPrefix : List Char → List Char → Bool
  | [], _ => true
  | _ :: _, [] => false
  | p :: ps, c :: cs => p == c && listIsPrefix ps cs

/-- Substring containment: the pattern (second argument) occurs somewhere
in the text (first argument). -/
def listContains : List Char → List Char → Bool
  | [], pat => listIsPrefix pat []
  | c :: t, pat => listIsPrefix pat (c :: t) || listContains t pat

/-- `str.upper()`, character by character (the scraper only uppercases
ASCII gene identifiers). -/
def strUpper (s : String) : String := String.mk (s.data.map Char.toUpper)

/-- `str.lower()`, character by character. -/
def strLower (s : String) : String := String.mk (s.data.map Char.toLower)

/-- `re.search` of a compiled pattern against a string, for the pattern
shapes this module compiles: every pattern is either a literal (matches
anywhere in the string, i.e. substring containment; an empty pattern
matches everything) or a literal anchored with a leading caret (matches a
prefix of the string), as in the one anchored heading pattern of line 180. -/
def reSearch (pat s : String) : Bool :=
  match pat.data with
  | [] => true
  | '^' :: rest => listIsPrefix rest s.data
  | _ :: _ => listContains s.data pat.data

/-- What the site returns for one GET: a connection-level failure (the
`requests.get` call raises), or a response with a status code, an optional
Content-Type header and a body already parsed into a `SoupPage`. -/
inductive FetchResult where
  | netFail
  | response (status : Nat) (contentType : Option String) (page : SoupPage)

/-- The network: what each URL answers. -/
abbrev World := String → FetchResult

/-- `_is_good_response(resp)` (lines 214-226): reading the Content-Type
header raises `KeyError` when the header is absent; otherwise the response
is good iff the status code is exactly 200 and the lower-cased Content-Type
contains the substring html.  (The `content_type is not None` conjunct of
line 225 is vacuous: `.lower()` has already returned a `str`.) -/
def is_good_response (status : Nat) (contentType : Option String) : Except PyError Bool :=
  match contentType with
  | Option.none => Except.error (PyError.keyError "Content-Type")
  | some ct =>
      Except.ok (decide (status = 200) && listContains (strLower ct).data "html".data)

/-- `_simple_get(url)` (lines 197-212): GET the URL; pass the body on when
the response is good, raise `RuntimeError` when it is not, and let a
network-level exception propagate. -/
def simple_get (world : World) (url : String) : Except PyError SoupPage :=
  match world url with
  | FetchResult.netFail => Except.error (PyError.requestException url)
  | FetchResult.response status ct page =>
      match is_good_response status ct with
      | Except.error e => Except.error e
      | Except.ok true => Except.ok page
      | Except.ok false => Except.error (PyError.runtimeError ("ERROR: Could not open " ++ url ++ "."))

/-- The `ConnectionError` of line 121; its message carries an unfilled
format placeholder, exactly as in the source (no `.format` call is made). -/
def connectError : PyError :=
  PyError.connectionError "Connecting to \x7b0:s\x7d failed. Make sure the URL is set correctly and is reachable."

/-- `connect()` (lines 115-123): one GET to the site root; any exception
out of it leaves `__connected = False` and raises `ConnectionError` (whose
message in the source carries an unfilled format placeholder), otherwise
`__connected` becomes `True`.  Returns the state after the call together
with the outcome. -/
def connect (world : World) (st : ScraperState) : ScraperState × Except PyError Unit :=
  match simple_get world pdc_url with
  | Except.error _ => ({ st with connected := false }, Except.error connectError)
  | Except.ok _ => ({ st with connected := true }, Except.ok ())

/-- `_pandasDF_from_heading(soup, table_heading)` (lines 242-266): find the
first h3 whose string matches the pattern.  When none matches, `find`
returns `None` and the `.find_next()` call on line 258 raises
`AttributeError` - this line sits before the try block, so the error
propagates.  When an h3 matches, `read_html` on the following element is
guarded: a parse failure is downgraded to a warning plus an empty table. -/
def pandasDF_from_heading (soup : SoupPage) (table_heading : String) : Except PyError DataFrame :=
  match soup.h3s.find? (fun h => reSearch table_heading h.1) with
  | Option.none => Except.error (PyError.attributeError "NoneType object has no attribute find_next")
  | some (_, Elem.table df) => Except.ok df
  | some (_, Elem.noTable) => Except.ok DataFrame.empty

/-- Lines 159-163 of `run_query`: when the feature term is non-empty, take
the first anchor whose visible text matches `re.compile(_feature.upper())`
(indexing an empty result list raises `IndexError`) and prepend the base
URL to its href; when the feature term is empty the branch is skipped and
line 163 reads the never-assigned local `feature_link`, raising
`UnboundLocalError`. -/
def resolve_feature_link (feature : String) (browser : SoupPage) : Except PyError String :=
  if feature == "" then Except.error (PyError.unboundLocalError "feature_link")
  else
    match browser.links.filter (fun l => reSearch (strUpper feature) l.1) with
    | [] => Except.error (PyError.indexError "list index out of range")
    | l :: _ => Except.ok (pdc_url ++ l.2)

/-- The result mapping: heading text to extracted table, with Python dict
assignment semantics (assigning an existing key overwrites in place,
assigning a new key appends). -/
abbrev Panels := List (String × DataFrame)

/-- `panels[k] = v`. -/
def panelsSet (p : Panels) (k : String) (v : DataFrame) : Panels :=
  if p.any (fun kv => kv.1 == k) then
    p.map (fun kv => if kv.1 == k then (k, v) else kv)
  else p ++ [(k, v)]

/-- The headings of the first loop (lines 171-178). -/
def headings1 : List String :=
  ["Gene Feature Overview", "Cross-References", "Product", "Subcellular localization",
   "Pathogen Association Analysis", "Orthologs/Comparative Genomics", "Interactions"]

/-- The headings of the second loop (lines 186-190). -/
def headings2 : List String :=
  ["Gene Ontology", "Functional Classifications Manually Assigned by PseudoCAP",
   "Functional Predictions from Interpro"]

/-- The first panel loop (lines 170-180): for each heading store its table,
and each time also re-store the References table under the anchored pattern
(disambiguating it from Cross-References).  An extraction error aborts. -/
def addPanels1 (browser : SoupPage) : List String → Panels → Except PyError Panels
  | [], p => Except.ok p
  | h :: rest, p =>
      match pandasDF_from_heading browser h with
      | Except.error e => Except.error e
      | Except.ok df =>
          match pandasDF_from_heading browser "^References" with
          | Except.error e => Except.error e
          | Except.ok dfr => addPanels1 browser rest (panelsSet (panelsSet p h df) "References" dfr)

/-- The second panel loop (lines 186-191). -/
def addPanels2 (browser : SoupPage) : List String → Panels → Except PyError Panels
  | [], p => Except.ok p
  | h :: rest, p =>
      match pandasDF_from_heading browser h with
      | Except.error e => Except.error e
      | Except.ok df => addPanels2 browser rest (panelsSet p h df)

/-- The query string for a strain search (line 148). -/
def search_url_strain (feature strain : String) : String :=
  pdc_url ++ "/primarySequenceFeature/list?c1=name&v1=" ++ feature ++ "&e1=1&term1=" ++ strain ++ "&assembly=complete"

/-- The query string for an organism search (line 150). -/
def search_url_organism (feature organism : String) : String :=
  pdc_url ++ "/primarySequenceFeature/list?c1=name&v1=" ++ feature ++ "&e1=1&term2=" ++ organism ++ "&assembly=complete"

/-- `str.format` with a `:s` spec raises `TypeError` on a non-string. -/
def fmtError : PyError :=
  PyError.typeError "unsupported format string passed to non-str.__format__"

/-- `run_query(query=None)` (lines 126-194).  Mirrors the source statement
by statement: the connected check; the optional setter call; the
`_feature` default (line 142-144: `None` becomes the empty string); the
`_url` assembly, assigned only in the strain and organism branches (lines
147-150) so that line 153, which formats `_url` into a debug message,
raises `UnboundLocalError` when neither branch ran; the search-page GET;
`resolve_feature_link`; the feature-page GET and first panel loop; the
functions-view GET and second panel loop.  Formatting a non-string query
field with `\x7b0:s\x7d` raises `TypeError` (unreachable for states built
through the setter, which admits only strings and `None`). -/
def run_query (world : World) (st : ScraperState) (queryArg : Option QueryInput) : Except PyError Panels :=
  if st.connected = false then
    Except.error (PyError.runtimeError "Not connected. Call .connect() before submitting the query.")
  else
    let qres : Except PyError PdcQuery :=
      match queryArg with
      | Option.none => Except.ok st.query
      | some v => set_query v
    match qres with
    | Except.error e => Except.error e
    | Except.ok q =>
      let featureVal : PyVal := if isNone q.feature then PyVal.str "" else q.feature
      let urlRes : Except PyError (Option String) :=
        if !(isNone q.strain) then
          match featureVal, q.strain with
          | PyVal.str f, PyVal.str s => Except.ok (some (search_url_strain f s))
          | _, _ => Except.error fmtError
        else if !(isNone q.organism) then
          match featureVal, q.organism with
          | PyVal.str f, PyVal.str s => Except.ok (some (search_url_organism f s))
          | _, _ => Except.error fmtError
        else Except.ok Option.none
      match urlRes with
      | Except.error e => Except.error e
      | Except.ok Option.none => Except.error (PyError.unboundLocalError "_url")
      | Except.ok (some url) =>
        match simple_get world url with
        | Except.error e => Except.error e
        | Except.ok browser =>
          match featureVal with
          | PyVal.str f =>
            (match resolve_feature_link f browser with
             | Except.error e => Except.error e
             | Except.ok feature_link =>
               match simple_get world feature_link with
               | Except.error e => Except.error e
               | Except.ok browser2 =>
                 match addPanels1 browser2 headings1 [] with
                 | Except.error e => Except.error e
                 | Except.ok panels =>
                   match simple_get world (feature_link ++ "&view=functions") with
                   | Except.error e => Except.error e
                   | Except.ok browser3 => addPanels2 browser3 headings2 panels)
          | _ => Except.error fmtError

/-! ### Spec-side predicates and concrete fixtures -/

/-- Read a query field out of a dict: the value at the key, `None` when the
key is missing.  Used to state which field values a dict input denotes. -/
def dictGetD (d : PyDict) (k : String) : PyVal :=
  (dictGet d k).getD PyVal.none

/-- The invalid-argument error family of the spec: Python `KeyError` or
`TypeError` raised by query validation. -/
def isInvalidArgument : PyError → Bool
  | PyError.keyError _ => true
  | PyError.typeError _ => true
  | _ => false

/-- Both strain and organism are set (present and non-`None`) in a query
input, for each input shape the setter accepts. -/
def bothStrainAndOrganismSet : QueryInput → Prop
  | QueryInput.query q => isNone q.strain = false ∧ isNone q.organism = false
  | QueryInput.dict d => isNone (dictGetD d "strain") = false ∧ isNone (dictGetD d "organism") = false
  | _ => False

/-- Some present field value of the query input is neither a string nor
`None`. -/
def hasNonStringField : QueryInput → Prop
  | QueryInput.query q =>
      isStrOrNone q.strain = false ∨ isStrOrNone q.feature = false ∨ isStrOrNone q.organism = false
  | QueryInput.dict d => ∃ k, k ∈ accepted_keys ∧ isStrOrNone (dictGetD d k) = false
  | _ => False

/-- Modelled from the spec: a hyperlink text matches a feature term
case-insensitively when the two coincide up to letter case. -/
def spec_ci_matches (term text : String) : Bool :=
  strLower term == strLower text

/-- A parsed page with no anchors and no h3 headings. -/
def pageNoHeadings : SoupPage := { links := [], h3s := [] }

/-- A concrete two-row, two-column table. -/
def dfProduct : DataFrame := { rows := [["a", "1"], ["b", "2"]] }

/-- A page with a Product heading followed by a table, and a References
heading whose following element holds no table. -/
def pageProductTable : SoupPage :=
  { links := [], h3s := [("Product", Elem.table dfProduct), ("References", Elem.noTable)] }

/-- A search-result page whose only anchor has the lower-case visible text
pflu0916. -/
def pageLowerLink : SoupPage :=
  { links := [("pflu0916", "/feature?id=1")], h3s := [] }

/-- A search-result page with a non-matching anchor followed by two whose
text contains PFLU0916. -/
def pageUpperLinks : SoupPage :=
  { links := [("something else", "/x"), ("PFLU0916 (gene)", "/feature?id=7"), ("PFLU0916 copy", "/feature?id=8")], h3s := [] }

/-- A site that answers every URL with an HTML 200 response whose body
parses to the empty page. -/
def goodWorld : World := fun _ => FetchResult.response 200 (some "text/html") pageNoHeadings

/-- A site that refuses every connection. -/
def worldDown : World := fun _ => FetchResult.netFail

/-- A site that answers every URL with status 201 (a 2xx status) and an
HTML content type. -/
def world201 : World := fun _ => FetchResult.response 201 (some "text/html") pageNoHeadings

/-- The default query, as the setter builds it from `None`. -/
def defaultQuery : PdcQuery :=
  { strain := PyVal.str "sbw25", feature := PyVal.none, organism := PyVal.none }

/-- A freshly constructed scraper: default query, not connected. -/
def st_fresh : ScraperState := { query := defaultQuery, connected := false }

/-- A connected scraper holding the default query (feature absent). -/
def st_defaultQ : ScraperState := { query := defaultQuery, connected := true }

/-- A connected scraper holding a feature-only query (strain and organism
both absent). -/
def st_featureOnly : ScraperState :=
  { query := { strain := PyVal.none, feature := PyVal.str "pflu0916", organism := PyVal.none },
    connected := true }

/-! ### Helper lemmas about the dict model and the setter -/

theorem dictGet_append_left (d l : PyDict) (k : String) (h : (dictGet d k).isSome) :
    dictGet (d ++ l) k = dictGet d k := by
  unfold dictGet at h ⊢
  rw [List.find?_append]
  cases hf : d.find? (fun kv => kv.1 == k) with
  | none => rw [hf] at h; simp at h
  | some kv => simp [hf]

theorem dictGet_append_right (d l : PyDict) (k : String) (h : dictGet d k = Option.none) :
    dictGet (d ++ l) k = dictGet l k := by
  unfold dictGet at h ⊢
  rw [List.find?_append]
  cases hf : d.find? (fun kv => kv.1 == k) with
  | none => simp [hf]
  | some kv => rw [hf] at h; simp at h

theorem dictHasKey_false_iff (d : PyDict) (k : String) :
    dictHasKey d k = false ↔ dictGet d k = Option.none := by
  unfold dictHasKey
  cases dictGet d k <;> simp

/-- One step of lines 93-99: insert key `k2` with value `None` when
missing. -/
def addMissing (d : PyDict) (k2 : String) : PyDict :=
  if dictHasKey d k2 then d else d ++ [(k2, PyVal.none)]

theorem complete_query_dict_eq (d : PyDict) :
    complete_query_dict d = addMissing (addMissing (addMissing d "strain") "feature") "organism" := rfl

theorem dictGet_addMissing (d : PyDict) (k k2 : String) :
    dictGet (addMissing d k2) k = if k = k2 then some (dictGetD d k) else dictGet d k := by
  unfold addMissing
  by_cases hk : k = k2
  · subst hk
    rw [if_pos rfl]
    by_cases h : dictHasKey d k
    · rw [if_pos h]
      unfold dictHasKey at h
      unfold dictGetD
      cases hg : dictGet d k with
      | none => rw [hg] at h; simp at h
      | some v => simp
    · rw [if_neg h]
      have hnone : dictGet d k = Option.none := (dictHasKey_false_iff d k).1 (by simpa using h)
      rw [dictGet_append_right d _ k hnone]
      unfold dictGetD
      rw [hnone]
      simp [dictGet]
  · rw [if_neg hk]
    by_cases h : dictHasKey d k2
    · rw [if_pos h]
    · rw [if_neg h]
      cases hg : dictGet d k with
      | some v =>
          rw [dictGet_append_left d _ k (by rw [hg]; rfl), hg]
      | none =>
          have hk2 : k2 ≠ k := fun hh => hk hh.symm
          have hfind : d.find? (fun kv => kv.1 == k) = Option.none := by
            unfold dictGet at hg
            cases hf : d.find? (fun kv => kv.1 == k) with
            | none => rfl
            | some kv => rw [hf] at hg; simp at hg
          simp [dictGet, List.find?_append, hfind, hk2]

theorem dictGetD_addMissing (d : PyDict) (k k2 : String) :
    dictGetD (addMissing d k2) k = dictGetD d k := by
  unfold dictGetD
  rw [dictGet_addMissing]
  by_cases hk : k = k2
  · rw [if_pos hk]; rfl
  · rw [if_neg hk]

theorem dictGet_complete (d : PyDict) (k : String) (hk : k ∈ accepted_keys) :
    dictGet (complete_query_dict d) k = some (dictGetD d k) := by
  rw [complete_query_dict_eq]
  simp only [accepted_keys, List.mem_cons, List.not_mem_nil, or_false] at hk
  rcases hk with rfl | rfl | rfl
  · rw [dictGet_addMissing]
    rw [if_neg (by decide), dictGet_addMissing, if_neg (by decide), dictGet_addMissing,
        if_pos rfl]
  · rw [dictGet_addMissing, if_neg (by decide), dictGet_addMissing, if_pos rfl,
        dictGetD_addMissing]
  · rw [dictGet_addMissing, if_pos rfl, dictGetD_addMissing, dictGetD_addMissing]

theorem no_unknown_key_iff (d : PyDict) :
    findUnknownKey d = Option.none ↔ ∀ kv ∈ d, kv.1 ∈ accepted_keys := by
  unfold findUnknownKey
  simp [List.find?_eq_none]

theorem set_query_dict_eq (d : PyDict) (h : ∀ kv ∈ d, kv.1 ∈ accepted_keys) :
    set_query_with_dict (QueryInput.dict d) =
      (validate_pdc_query
        { strain := dictGetD d "strain", feature := dictGetD d "feature", organism := dictGetD d "organism" },
       some (complete_query_dict d)) := by
  have h0 : findUnknownKey d = Option.none := (no_unknown_key_iff d).2 h
  have hq : dict_to_pdc_query (complete_query_dict d) =
      { strain := dictGetD d "strain", feature := dictGetD d "feature", organism := dictGetD d "organism" } := by
    unfold dict_to_pdc_query
    rw [dictGet_complete d "strain" (by simp [accepted_keys]),
        dictGet_complete d "feature" (by simp [accepted_keys]),
        dictGet_complete d "organism" (by simp [accepted_keys])]
    rfl
  simp only [set_query_with_dict, h0]
  rw [hq]

theorem validate_ok (q : PdcQuery) (h1 : isNone q.strain = true ∨ isNone q.organism = true)
    (h2 : isStrOrNone q.strain = true) (h3 : isStrOrNone q.feature = true)
    (h4 : isStrOrNone q.organism = true) :
    validate_pdc_query q = Except.ok q := by
  unfold validate_pdc_query
  rcases h1 with h1 | h1 <;> simp [h1, h2, h3, h4]

theorem validate_bothset (q : PdcQuery) (h1 : isNone q.strain = false)
    (h2 : isNone q.organism = false) :
    validate_pdc_query q =
      Except.error (PyError.keyError "Invalid combination of query keywords: organism must not be combined with strain.") := by
  unfold validate_pdc_query
  rw [if_pos (by rw [h1, h2]; rfl)]

theorem validate_invalid (q : PdcQuery)
    (h : isStrOrNone q.strain = false ∨ isStrOrNone q.feature = false ∨ isStrOrNone q.organism = false) :
    ∃ e, validate_pdc_query q = Except.error e ∧ isInvalidArgument e = true := by
  unfold validate_pdc_query
  by_cases hc : (!(isNone q.organism) && !(isNone q.strain)) = true
  · rw [if_pos hc]
    exact ⟨_, rfl, rfl⟩
  · rw [if_neg hc]
    have hall : ([q.strain, q.feature, q.organism].all isStrOrNone) = false := by
      rcases h with h | h | h <;> simp [List.all, h]
    rw [if_pos (by rw [hall]; rfl)]
    exact ⟨_, rfl, rfl⟩

theorem isStrOrNone_dictGetD (d : PyDict) (k : String)
    (h : ∀ kv ∈ d, isStrOrNone kv.2 = true) :
    isStrOrNone (dictGetD d k) = true := by
  unfold dictGetD dictGet
  cases hf : d.find? (fun kv => kv.1 == k) with
  | none => rfl
  | some kv => simpa using h kv (List.mem_of_find?_eq_some hf)

theorem validate_ok_eq (Q q : PdcQuery) (h : validate_pdc_query Q = Except.ok q) : q = Q := by
  unfold validate_pdc_query at h
  split at h
  · cases h
  · split at h
    · cases h
    · injection h with h'
      exact h'.symm

/-! ### The claims -/

/-- C3: on a scraper whose connection state is false, `run_query` fails at
once with the not-connected `RuntimeError`, for every query argument; the
result is the same constant error for every `world`, so no network request
is performed. -/
theorem run_query_requires_connect (world : World) (st : ScraperState)
    (qa : Option QueryInput) (h : st.connected = false) :
    run_query world st qa =
      Except.error (PyError.runtimeError "Not connected. Call .connect() before submitting the query.") := by
  unfold run_query
  rw [if_pos h]

/-- Witness for C3: a freshly constructed scraper rejects `run_query` even
against a fully healthy site. -/
theorem run_query_requires_connect_witness :
    run_query goodWorld st_fresh Option.none =
      Except.error (PyError.runtimeError "Not connected. Call .connect() before submitting the query.") :=
  run_query_requires_connect goodWorld st_fresh Option.none rfl

/-- C5: a query input (triple or mapping) with both strain and organism set
is always rejected with a `KeyError` (the invalid-argument error of the
spec). -/
theorem both_set_rejected (val : QueryInput) (h : bothStrainAndOrganismSet val) :
    ∃ msg, set_query val = Except.error (PyError.keyError msg) := by
  cases val with
  | pyNone => exact absurd h (by simp [bothStrainAndOrganismSet])
  | other t => exact absurd h (by simp [bothStrainAndOrganismSet])
  | query q =>
      obtain ⟨h1, h2⟩ := h
      exact ⟨_, validate_bothset q h1 h2⟩
  | dict d =>
      obtain ⟨h1, h2⟩ := h
      cases hu : findUnknownKey d with
      | some k =>
          exact ⟨"Only strain, feature, and organism are acceptable keys.",
            by simp [set_query, set_query_with_dict, hu]⟩
      | none =>
          have hkeys : ∀ kv ∈ d, kv.1 ∈ accepted_keys := (no_unknown_key_iff d).1 hu
          refine ⟨"Invalid combination of query keywords: organism must not be combined with strain.", ?_⟩
          unfold set_query
          rw [set_query_dict_eq d hkeys]
          exact validate_bothset _ h1 h2

/-- Witness for C5: strain together with organism is rejected. -/
theorem both_set_rejected_witness :
    ∃ msg, set_query (QueryInput.query
        { strain := PyVal.str "sbw25", feature := PyVal.none, organism := PyVal.str "pseudomonas fluorescens" }) =
      Except.error (PyError.keyError msg) :=
  both_set_rejected _ ⟨rfl, rfl⟩

/-- C6: every valid query input (at most one of strain/organism set, every
present field a string) is accepted by the constructor and the stored query
carries the same three field values; with no query given, the default is
strain sbw25 with feature and organism absent. -/
theorem query_roundtrip :
    (∀ q : PdcQuery,
       (isNone q.strain = true ∨ isNone q.organism = true) →
       isStrOrNone q.strain = true → isStrOrNone q.feature = true → isStrOrNone q.organism = true →
       scraper_init (QueryInput.query q) = Except.ok { query := q, connected := false })
    ∧ (∀ d : PyDict,
       (∀ kv ∈ d, kv.1 ∈ accepted_keys) →
       (∀ kv ∈ d, isStrOrNone kv.2 = true) →
       (isNone (dictGetD d "strain") = true ∨ isNone (dictGetD d "organism") = true) →
       scraper_init (QueryInput.dict d) =
         Except.ok { query := { strain := dictGetD d "strain", feature := dictGetD d "feature",
                                organism := dictGetD d "organism" },
                     connected := false })
    ∧ scraper_init QueryInput.pyNone = Except.ok { query := defaultQuery, connected := false } := by
  refine ⟨?_, ?_, ?_⟩
  · intro q h1 h2 h3 h4
    unfold scraper_init set_query
    simp only [set_query_with_dict]
    rw [validate_ok q h1 h2 h3 h4]
  · intro d hkeys hvals h1
    unfold scraper_init set_query
    rw [set_query_dict_eq d hkeys]
    have hok := validate_ok
      { strain := dictGetD d "strain", feature := dictGetD d "feature", organism := dictGetD d "organism" }
      h1 (isStrOrNone_dictGetD d "strain" hvals) (isStrOrNone_dictGetD d "feature" hvals)
      (isStrOrNone_dictGetD d "organism" hvals)
    rw [hok]
  · rfl

/-- Witness for C6: a strain+feature triple round-trips, a feature-only
mapping round-trips with the missing keys absent, and the default query is
stored when none is given. -/
theorem query_roundtrip_witness :
    scraper_init (QueryInput.query
        { strain := PyVal.str "sbw25", feature := PyVal.str "pflu0916", organism := PyVal.none }) =
      Except.ok { query := { strain := PyVal.str "sbw25", feature := PyVal.str "pflu0916", organism := PyVal.none },
                  connected := false }
    ∧ scraper_init (QueryInput.dict [("feature", PyVal.str "pflu0916")]) =
      Except.ok { query := { strain := PyVal.none, feature := PyVal.str "pflu0916", organism := PyVal.none },
                  connected := false } := by
  constructor
  · exact query_roundtrip.1 _ (Or.inr rfl) rfl rfl rfl
  · exact query_roundtrip.2.1 [("feature", PyVal.str "pflu0916")] (by decide) (by decide) (Or.inl rfl)

/-- C7: a mapping with a key outside strain/feature/organism is always
rejected with the accepted-keys `KeyError`; in an accepted mapping, keys
that are missing default to absent (`None`) in the stored query. -/
theorem unknown_key_rejected :
    (∀ d : PyDict, (∃ kv ∈ d, kv.1 ∉ accepted_keys) →
       set_query (QueryInput.dict d) =
         Except.error (PyError.keyError "Only strain, feature, and organism are acceptable keys."))
    ∧ (∀ d : PyDict, (∀ kv ∈ d, kv.1 ∈ accepted_keys) →
       ∀ q : PdcQuery, set_query (QueryInput.dict d) = Except.ok q →
         (dictHasKey d "strain" = false → q.strain = PyVal.none)
         ∧ (dictHasKey d "feature" = false → q.feature = PyVal.none)
         ∧ (dictHasKey d "organism" = false → q.organism = PyVal.none)) := by
  constructor
  · intro d hex
    obtain ⟨kv, hmem, hnot⟩ := hex
    have hsome : (d.find? (fun kv => !(accepted_keys.contains kv.1))).isSome := by
      rw [List.find?_isSome]
      exact ⟨kv, hmem, by simpa using hnot⟩
    obtain ⟨kv2, hkv2⟩ := Option.isSome_iff_exists.1 hsome
    have hu : findUnknownKey d = some kv2.1 := by
      unfold findUnknownKey
      rw [hkv2]
      rfl
    simp [set_query, set_query_with_dict, hu]
  · intro d hkeys q hq
    rw [show set_query (QueryInput.dict d) = (set_query_with_dict (QueryInput.dict d)).1 from rfl,
        set_query_dict_eq d hkeys] at hq
    have hqQ := validate_ok_eq _ _ hq
    refine ⟨?_, ?_, ?_⟩ <;> intro hmiss <;> rw [hqQ]
    · show dictGetD d "strain" = PyVal.none
      unfold dictGetD
      rw [(dictHasKey_false_iff d "strain").1 hmiss]
      rfl
    · show dictGetD d "feature" = PyVal.none
      unfold dictGetD
      rw [(dictHasKey_false_iff d "feature").1 hmiss]
      rfl
    · show dictGetD d "organism" = PyVal.none
      unfold dictGetD
      rw [(dictHasKey_false_iff d "organism").1 hmiss]
      rfl

/-- Witness for C7: the key `strains` is rejected, and a feature-only
mapping stores `None` for the two missing keys. -/
theorem unknown_key_rejected_witness :
    set_query (QueryInput.dict [("strains", PyVal.str "sbw25")]) =
      Except.error (PyError.keyError "Only strain, feature, and organism are acceptable keys.")
    ∧ ((PyVal.str "pflu0916" = PyVal.str "pflu0916")
       ∧ PyVal.none = PyVal.none ∧ PyVal.none = PyVal.none) := by
  constructor
  · exact unknown_key_rejected.1 [("strains", PyVal.str "sbw25")]
      ⟨("strains", PyVal.str "sbw25"), by decide, by decide⟩
  · have h := unknown_key_rejected.2 [("feature", PyVal.str "pflu0916")] (by decide)
      { strain := PyVal.none, feature := PyVal.str "pflu0916", organism := PyVal.none } rfl
    exact ⟨rfl, h.1 rfl, h.2.2 rfl⟩

/-- C8: a query input with a present field value that is neither a string
nor `None` is always rejected with an invalid-argument error (`KeyError` or
`TypeError`). -/
theorem nonstring_value_rejected (val : QueryInput) (h : hasNonStringField val) :
    ∃ e, set_query val = Except.error e ∧ isInvalidArgument e = true := by
  cases val with
  | pyNone => exact absurd h (by simp [hasNonStringField])
  | other t => exact absurd h (by simp [hasNonStringField])
  | query q => exact validate_invalid q h
  | dict d =>
      obtain ⟨k, hk, hv⟩ := h
      cases hu : findUnknownKey d with
      | some k2 =>
          exact ⟨PyError.keyError "Only strain, feature, and organism are acceptable keys.",
            by simp [set_query, set_query_with_dict, hu], rfl⟩
      | none =>
          have hkeys := (no_unknown_key_iff d).1 hu
          unfold set_query
          rw [set_query_dict_eq d hkeys]
          simp only [accepted_keys, List.mem_cons, List.not_mem_nil, or_false] at hk
          rcases hk with rfl | rfl | rfl
          · exact validate_invalid _ (Or.inl hv)
          · exact validate_invalid _ (Or.inr (Or.inl hv))
          · exact validate_invalid _ (Or.inr (Or.inr hv))

/-- Witness for C8: an integer-valued feature is rejected with a
`TypeError`. -/
theorem nonstring_value_rejected_witness :
    ∃ e, set_query (QueryInput.query
        { strain := PyVal.none, feature := PyVal.other "int", organism := PyVal.none }) =
      Except.error e ∧ isInvalidArgument e = true :=
  nonstring_value_rejected _ (Or.inr (Or.inl rfl))

/-- C10: when the query is set from a mapping whose keys all pass the
accepted-keys check, the caller's dict object itself ends up completed:
each of strain/feature/organism that was missing is inserted with value
`None`, so a mapping missing one of them is not left unchanged. -/
theorem dict_query_mutates_caller (d : PyDict) (hkeys : ∀ kv ∈ d, kv.1 ∈ accepted_keys) :
    (set_query_with_dict (QueryInput.dict d)).2 = some (complete_query_dict d)
    ∧ (∀ k ∈ accepted_keys, dictHasKey d k = false →
         dictGet (complete_query_dict d) k = some PyVal.none)
    ∧ ((dictHasKey d "strain" = false ∨ dictHasKey d "feature" = false ∨
        dictHasKey d "organism" = false) → complete_query_dict d ≠ d) := by
  have h2 : ∀ k ∈ accepted_keys, dictHasKey d k = false →
      dictGet (complete_query_dict d) k = some PyVal.none := by
    intro k hk hmiss
    rw [dictGet_complete d k hk]
    unfold dictGetD
    rw [(dictHasKey_false_iff d k).1 hmiss]
    rfl
  refine ⟨?_, h2, ?_⟩
  · rw [set_query_dict_eq d hkeys]
  · intro hmiss heq
    rcases hmiss with hm | hm | hm
    · have hg := h2 "strain" (by simp [accepted_keys]) hm
      rw [heq, (dictHasKey_false_iff d "strain").1 hm] at hg
      exact Option.noConfusion hg
    · have hg := h2 "feature" (by simp [accepted_keys]) hm
      rw [heq, (dictHasKey_false_iff d "feature").1 hm] at hg
      exact Option.noConfusion hg
    · have hg := h2 "organism" (by simp [accepted_keys]) hm
      rw [heq, (dictHasKey_false_iff d "organism").1 hm] at hg
      exact Option.noConfusion hg

/-- Witness for C10: a strain-only mapping comes back with feature and
organism inserted, and differs from the mapping that was passed in. -/
theorem dict_query_mutates_caller_witness :
    (set_query_with_dict (QueryInput.dict [("strain", PyVal.str "sbw25")])).2 =
      some [("strain", PyVal.str "sbw25"), ("feature", PyVal.none), ("organism", PyVal.none)]
    ∧ complete_query_dict [("strain", PyVal.str "sbw25")] ≠ [("strain", PyVal.str "sbw25")] := by
  have h := dict_query_mutates_caller [("strain", PyVal.str "sbw25")] (by decide)
  exact ⟨by rw [h.1]; rfl, h.2.2 (Or.inr (Or.inl rfl))⟩

/-- C1 counterexample: on a page where the requested heading is absent,
the table-extraction primitive raises an `AttributeError` to the caller
(`soup.find` returns `None` and line 258 calls `.find_next()` on it before
the try block) instead of returning an empty table. -/
theorem table_extraction_absent_heading_raises :
    pandasDF_from_heading pageNoHeadings "Product" =
      Except.error (PyError.attributeError "NoneType object has no attribute find_next")
    ∧ pandasDF_from_heading pageNoHeadings "Product" ≠ Except.ok DataFrame.empty :=
  ⟨rfl, fun h => Except.noConfusion h⟩

/-- C1 (amended): when no h3 heading matches, extraction raises an
`AttributeError`; when a heading matches, a failure to parse the following
element as a table is downgraded to an empty table (plus a warning), and a
parsed table is returned as is. -/
theorem table_extraction_amended (soup : SoupPage) (heading : String) :
    (soup.h3s.find? (fun h => reSearch heading h.1) = Option.none →
       pandasDF_from_heading soup heading =
         Except.error (PyError.attributeError "NoneType object has no attribute find_next"))
    ∧ (∀ t, soup.h3s.find? (fun h => reSearch heading h.1) = some (t, Elem.noTable) →
       pandasDF_from_heading soup heading = Except.ok DataFrame.empty)
    ∧ (∀ t df, soup.h3s.find? (fun h => reSearch heading h.1) = some (t, Elem.table df) →
       pandasDF_from_heading soup heading = Except.ok df) := by
  refine ⟨fun h => ?_, fun t h => ?_, fun t df h => ?_⟩ <;> simp [pandasDF_from_heading, h]

/-- Witness for C1 (amended): on a concrete page, a missing heading
raises, a heading with no following table yields the empty table, and the
Product heading yields its two-row table. -/
theorem table_extraction_amended_witness :
    pandasDF_from_heading pageProductTable "Gene Ontology" =
      Except.error (PyError.attributeError "NoneType object has no attribute find_next")
    ∧ pandasDF_from_heading pageProductTable "^References" = Except.ok DataFrame.empty
    ∧ pandasDF_from_heading pageProductTable "Product" = Except.ok dfProduct :=
  ⟨(table_extraction_amended pageProductTable "Gene Ontology").1 rfl,
   (table_extraction_amended pageProductTable "^References").2.1 "References" rfl,
   (table_extraction_amended pageProductTable "Product").2.2 "Product" dfProduct rfl⟩

/-- C2 counterexample: the search page holds exactly one link, whose
visible text equals the feature term (so it matches it case-insensitively,
indeed verbatim), yet the scraper fails with an `IndexError` instead of
resolving base URL + href: line 160 greps for the upper-cased feature
term with a case-sensitive regex, which the lower-case link text does not
contain. -/
theorem feature_link_counterexample :
    spec_ci_matches "pflu0916" "pflu0916" = true
    ∧ pageLowerLink.links = [("pflu0916", "/feature?id=1")]
    ∧ resolve_feature_link "pflu0916" pageLowerLink =
        Except.error (PyError.indexError "list index out of range")
    ∧ resolve_feature_link "pflu0916" pageLowerLink ≠ Except.ok (pdc_url ++ "/feature?id=1") :=
  ⟨rfl, rfl, rfl, fun h => Except.noConfusion h⟩

/-- C2 (amended): with a non-empty feature term, the scraper takes the
first link whose visible text contains the upper-cased feature term as a
substring, raises an `IndexError` when no link does, and the resolved
feature URL is the base URL concatenated with that link's href. -/
theorem feature_link_amended (feature : String) (browser : SoupPage)
    (hf : (feature == "") = false) :
    (browser.links.filter (fun l => reSearch (strUpper feature) l.1) = [] →
       resolve_feature_link feature browser =
         Except.error (PyError.indexError "list index out of range"))
    ∧ (∀ t href rest,
       browser.links.filter (fun l => reSearch (strUpper feature) l.1) = (t, href) :: rest →
       resolve_feature_link feature browser = Except.ok (pdc_url ++ href)) := by
  constructor
  · intro h
    simp [resolve_feature_link, hf, h]
  · intro t href rest h
    simp [resolve_feature_link, hf, h]

/-- Witness for C2 (amended): on a concrete search page the first of the
two matching links is resolved against the base URL, and a term no link
text contains raises the `IndexError`. -/
theorem feature_link_amended_witness :
    resolve_feature_link "pflu0916" pageUpperLinks = Except.ok (pdc_url ++ "/feature?id=7")
    ∧ resolve_feature_link "nothere" pageUpperLinks =
        Except.error (PyError.indexError "list index out of range") :=
  ⟨(feature_link_amended "pflu0916" pageUpperLinks rfl).2
      "PFLU0916 (gene)" "/feature?id=7" [("PFLU0916 copy", "/feature?id=8")] rfl,
   (feature_link_amended "nothere" pageUpperLinks rfl).1 rfl⟩

/-- C4 counterexample: a 201 response (a 2xx status) with an HTML content
type still leaves the connection state false and raises the connection
error, because `_is_good_response` demands status exactly 200. -/
theorem connect_counterexample_2xx :
    (200 ≤ 201 ∧ 201 < 300)
    ∧ listContains (strLower "text/html").data "html".data = true
    ∧ connect world201 st_fresh = (st_fresh, Except.error connectError)
    ∧ st_fresh.connected = false :=
  ⟨⟨by norm_num, by norm_num⟩, rfl, rfl, rfl⟩

/-- C4 (amended): connect consults the network only at the site root; on a
network failure, a missing Content-Type header, a status other than
exactly 200, or a content type not containing html, it leaves the
connection state false and raises the connection error; on a 200 HTML
response it sets the connection state true. -/
theorem connect_amended (world : World) (st : ScraperState) :
    (∀ world2 : World, world2 pdc_url = world pdc_url → connect world2 st = connect world st)
    ∧ (world pdc_url = FetchResult.netFail →
        connect world st = ({ st with connected := false }, Except.error connectError))
    ∧ (∀ status ct page, world pdc_url = FetchResult.response status ct page →
        ((status ≠ 200 ∨ ct = Option.none ∨
          (∃ c, ct = some c ∧ listContains (strLower c).data "html".data = false)) →
           connect world st = ({ st with connected := false }, Except.error connectError))
        ∧ (∀ c, status = 200 → ct = some c →
           listContains (strLower c).data "html".data = true →
           connect world st = ({ st with connected := true }, Except.ok ()))) := by
  refine ⟨?_, ?_, ?_⟩
  · intro world2 h
    unfold connect simple_get
    rw [h]
  · intro h
    simp [connect, simple_get, h]
  · intro status ct page h
    constructor
    · intro hbad
      rcases hbad with h200 | hnone | ⟨c, hc, hcontains⟩
      · cases ct with
        | none => simp [connect, simple_get, h, is_good_response]
        | some c => simp [connect, simple_get, h, is_good_response, h200]
      · subst hnone
        simp [connect, simple_get, h, is_good_response]
      · subst hc
        simp [connect, simple_get, h, is_good_response, hcontains]
    · intro c h200 hct hcontains
      subst h200
      subst hct
      simp [connect, simple_get, h, is_good_response, hcontains]

/-- Witness for C4 (amended): a dead network leaves the scraper
disconnected with the connection error, and a healthy 200 HTML root
response connects it. -/
theorem connect_amended_witness :
    connect worldDown st_fresh = ({ st_fresh with connected := false }, Except.error connectError)
    ∧ connect goodWorld st_fresh = ({ st_fresh with connected := true }, Except.ok ()) :=
  ⟨(connect_amended worldDown st_fresh).2.1 rfl,
   ((connect_amended goodWorld st_fresh).2.2 200 (some "text/html") pageNoHeadings rfl).2
      "text/html" rfl rfl rfl⟩

/-- C9: on a connected scraper, a query with the feature field absent never
returns a result mapping for any network behaviour; when additionally
strain or organism is set and the search-page fetch succeeds, run_query
dies reading the never-assigned local feature_link (line 163); and when
strain and organism are both absent, it dies reading the never-assigned
local _url (line 153) before any fetch, again for any network. -/
theorem run_query_unbound_locals (world : World) (st : ScraperState)
    (hconn : st.connected = true) :
    (st.query.feature = PyVal.none → ∀ p, run_query world st Option.none ≠ Except.ok p)
    ∧ (st.query.feature = PyVal.none →
       ((∃ s, st.query.strain = PyVal.str s) ∨
        (st.query.strain = PyVal.none ∧ ∃ s, st.query.organism = PyVal.str s)) →
       (∀ u, ∃ pg, simple_get world u = Except.ok pg) →
       run_query world st Option.none = Except.error (PyError.unboundLocalError "feature_link"))
    ∧ (st.query.strain = PyVal.none → st.query.organism = PyVal.none →
       run_query world st Option.none = Except.error (PyError.unboundLocalError "_url")) := by
  obtain ⟨⟨qs, qf, qo⟩, sc⟩ := st
  simp only at hconn
  subst hconn
  refine ⟨?_, ?_, ?_⟩
  · intro hf p hok
    simp only at hf
    subst hf
    cases qs with
    | str s =>
        simp [run_query, isNone] at hok
        cases hsg : simple_get world (search_url_strain "" s) with
        | error e => rw [hsg] at hok; simp [resolve_feature_link] at hok
        | ok browser => rw [hsg] at hok; simp [resolve_feature_link] at hok
    | none =>
        cases qo with
        | none => simp [run_query, isNone] at hok
        | str s =>
            simp [run_query, isNone] at hok
            cases hsg : simple_get world (search_url_organism "" s) with
            | error e => rw [hsg] at hok; simp [resolve_feature_link] at hok
            | ok browser => rw [hsg] at hok; simp [resolve_feature_link] at hok
        | other t => simp [run_query, isNone] at hok
    | other t => simp [run_query, isNone] at hok
  · intro hf hso hw
    simp only at hf
    subst hf
    rcases hso with ⟨s, hs⟩ | ⟨hs, s, ho⟩
    · simp only at hs
      subst hs
      obtain ⟨pg, hpg⟩ := hw (search_url_strain "" s)
      simp [run_query, isNone, hpg, resolve_feature_link]
    · simp only at hs ho
      subst hs
      subst ho
      obtain ⟨pg, hpg⟩ := hw (search_url_organism "" s)
      simp [run_query, isNone, hpg, resolve_feature_link]
  · intro hs ho
    simp only at hs ho
    subst hs
    subst ho
    cases qf <;> simp [run_query, isNone]

/-- Witness for C9: against a fully healthy site, the default query
(feature absent, strain sbw25) dies on feature_link, and a feature-only
query dies on _url. -/
theorem run_query_unbound_locals_witness :
    run_query goodWorld st_defaultQ Option.none =
      Except.error (PyError.unboundLocalError "feature_link")
    ∧ run_query goodWorld st_featureOnly Option.none =
      Except.error (PyError.unboundLocalError "_url") :=
  ⟨(run_query_unbound_locals goodWorld st_defaultQ rfl).2.1 rfl (Or.inl ⟨"sbw25", rfl⟩)
      (fun _ => ⟨pageNoHeadings, rfl⟩),
   (run_query_unbound_locals goodWorld st_featureOnly rfl).2.2 rfl rfl⟩
